import Mathlib

/-!
Verification development for the milestones data layer.

The data-management module operates on five persisted tables (milestones,
relationship types, and three association tables) through a relational
store providing get/filter/create/delete by field equality.  The store
itself, the record serializers and the request-facing operation layer are
external to the module under study; they are embedded here from the
specification's data-model and record-shape descriptions, while every
operation of the data module itself is translated directly from its
source.  Tables are embedded as lists of records, the store's implicit
reverse-relation joins as existence filters, and operations that can raise
return Except values.
-/

namespace EdxMilestones

/-- Modelled from the spec: models.py is absent from the sources; the
Milestone entity per the data model carries an id assigned by the store,
a namespace, a name, a description and a soft-delete active flag. -/
structure Milestone where
  id : Nat
  «namespace» : String
  name : String
  description : String
  active : Bool
deriving Repr, DecidableEq

/-- Modelled from the spec: relationship-type record with a name and an
active flag, id assigned by the store. -/
structure MilestoneRelationshipType where
  id : Nat
  name : String
  active : Bool
deriving Repr, DecidableEq

/-- Modelled from the spec: course-milestone link row; the milestone
reference is stored by primary key and may be absent when the supplied
milestone record carried no id. -/
structure CourseMilestone where
  course_id : String
  milestone : Option Nat
  milestone_relationship_type : Nat
  active : Bool
deriving Repr, DecidableEq

/-- Modelled from the spec: course-content-milestone link row. -/
structure CourseContentMilestone where
  course_id : String
  content_id : String
  milestone : Option Nat
  milestone_relationship_type : Nat
  active : Bool
deriving Repr, DecidableEq

/-- Modelled from the spec: user-milestone link row. -/
structure UserMilestone where
  user_id : Int
  milestone : Option Nat
  active : Bool
deriving Repr, DecidableEq

/-- Modelled from the spec: the relational store's five tables plus the
id counters it uses to assign primary keys on creation. -/
structure Store where
  milestones : List Milestone
  relationshipTypes : List MilestoneRelationshipType
  courseMilestones : List CourseMilestone
  courseContentMilestones : List CourseContentMilestone
  userMilestones : List UserMilestone
  nextMilestoneId : Nat
  nextRelationshipTypeId : Nat
deriving Repr, DecidableEq

/-- Exceptions raised by the data layer (exceptions.py), plus the store's
multiple-objects-returned condition which an uncaught get of a non-unique
row would propagate. -/
inductive MilestonesError where
  | invalidMilestone
  | invalidMilestoneRelationshipType
  | multipleObjectsReturned
deriving Repr, DecidableEq

/-- Modelled from the spec: the external milestone record shape, with an
optional id and required namespace and name. -/
structure MilestoneSpec where
  id : Option Nat
  «namespace» : String
  name : String
  description : String
  active : Bool
deriving Repr, DecidableEq

/-- Modelled from the spec: the user identity record, an integer id at
minimum (a record without a usable id is represented by a non-positive
id, matching the source's user.get of id with default 0). -/
structure UserSpec where
  id : Int
deriving Repr, DecidableEq

/-- Modelled from the spec: serializers.py is absent from the sources;
serializing a milestone yields the external record with the stored id. -/
def serialize_milestone (m : Milestone) : MilestoneSpec :=
  { id := some m.id
    «namespace» := m.«namespace»
    name := m.name
    description := m.description
    active := m.active }

/-- Modelled from the spec: course-milestone read record, the milestone
fields merged with the association's relationship name, plus the course
id the fulfillment-path resolver consumes. -/
structure CourseMilestoneRecord where
  id : Option Nat
  «namespace» : String
  name : String
  description : String
  active : Bool
  course_id : String
  relationship : String
deriving Repr, DecidableEq

/-- Modelled from the spec: course-content-milestone read record, the
course-milestone record shape plus the content identifier. -/
structure CourseContentMilestoneRecord where
  id : Option Nat
  «namespace» : String
  name : String
  description : String
  active : Bool
  course_id : String
  content_id : String
  relationship : String
deriving Repr, DecidableEq

/-- Name of the relationship type a link row references, resolved
against the store (empty when dangling, which the store's referential
integrity prevents). -/
def relationshipName (mrtId : Nat) (s : Store) : String :=
  ((s.relationshipTypes.find? (fun t => t.id == mrtId)).map (fun t => t.name)).getD ""

/-- Modelled from the spec: serialization of a course-milestone row,
joining the referenced milestone record in. -/
def serialize_milestone_with_course (row : CourseMilestone) (s : Store) : CourseMilestoneRecord :=
  match s.milestones.find? (fun mr => some mr.id == row.milestone) with
  | some mr =>
    { id := some mr.id
      «namespace» := mr.«namespace»
      name := mr.name
      description := mr.description
      active := mr.active
      course_id := row.course_id
      relationship := relationshipName row.milestone_relationship_type s }
  | none =>
    { id := none
      «namespace» := ""
      name := ""
      description := ""
      active := false
      course_id := row.course_id
      relationship := relationshipName row.milestone_relationship_type s }

/-- Modelled from the spec: serialization of a course-content-milestone
row, joining the referenced milestone record in. -/
def serialize_milestone_with_course_content (row : CourseContentMilestone) (s : Store) :
    CourseContentMilestoneRecord :=
  match s.milestones.find? (fun mr => some mr.id == row.milestone) with
  | some mr =>
    { id := some mr.id
      «namespace» := mr.«namespace»
      name := mr.name
      description := mr.description
      active := mr.active
      course_id := row.course_id
      content_id := row.content_id
      relationship := relationshipName row.milestone_relationship_type s }
  | none =>
    { id := none
      «namespace» := ""
      name := ""
      description := ""
      active := false
      course_id := row.course_id
      content_id := row.content_id
      relationship := relationshipName row.milestone_relationship_type s }

/-- Truthiness of an optional string argument, as the source's bare
if-tests treat a missing or empty key. -/
def optTruthy : Option String → Bool
  | none => false
  | some v => v != ""

/-- Retrieves the milestone relationship type object from the backend:
an active type matching the name if one exists; otherwise the two
well-known names are created on first use and any other name raises the
invalid-relationship-type exception. -/
def getMilestoneRelationshipType (relationship : Option String) (s : Store) :
    Except MilestonesError (MilestoneRelationshipType × Store) :=
  match s.relationshipTypes.find? (fun t => some t.name == relationship && t.active) with
  | some t => .ok (t, s)
  | none =>
    if relationship = some "requires" ∨ relationship = some "fulfills" then
      let t : MilestoneRelationshipType :=
        { id := s.nextRelationshipTypeId
          name := (relationship.getD "")
          active := true }
      .ok (t, { s with
                  relationshipTypes := s.relationshipTypes ++ [t]
                  nextRelationshipTypeId := s.nextRelationshipTypeId + 1 })
    else
      .error .invalidMilestoneRelationshipType

/-- Inserts a new milestone into app/local state via get-or-create keyed
on namespace, name and active; the description is only used as a default
when a fresh row is created.  Returns the serialized record. -/
def create_milestone (m : MilestoneSpec) (s : Store) : MilestoneSpec × Store :=
  match s.milestones.find? (fun r =>
      r.«namespace» == m.«namespace» && r.name == m.name && r.active) with
  | some r => (serialize_milestone r, s)
  | none =>
    let r : Milestone :=
      { id := s.nextMilestoneId
        «namespace» := m.«namespace»
        name := m.name
        description := m.description
        active := true }
    (serialize_milestone r,
     { s with
         milestones := s.milestones ++ [r]
         nextMilestoneId := s.nextMilestoneId + 1 })

/-- Updates an existing milestone: fetches the record by id (raising the
invalid-milestone exception when no record matches), overwrites the
fetched object's name, namespace, description and active fields, and
returns the serialized result.  The source never saves the mutated
object back to the store, so the returned store is unchanged. -/
def update_milestone (m : MilestoneSpec) (s : Store) :
    Except MilestonesError (MilestoneSpec × Store) :=
  match s.milestones.find? (fun r => some r.id == m.id) with
  | none => .error .invalidMilestone
  | some r =>
    .ok ({ id := some r.id
           «namespace» := m.«namespace»
           name := m.name
           description := m.description
           active := m.active }, s)

/-- Deletes an existing milestone and its defined dependencies: all
course-milestone, course-content-milestone and user-milestone rows whose
milestone reference equals the supplied record's id, and then the
milestone rows with that id, by unconditional filtered bulk deletes. -/
def delete_milestone (m : MilestoneSpec) (s : Store) : Store :=
  { s with
      courseMilestones := s.courseMilestones.filter (fun row => !(row.milestone == m.id))
      courseContentMilestones :=
        s.courseContentMilestones.filter (fun row => !(row.milestone == m.id))
      userMilestones := s.userMilestones.filter (fun row => !(row.milestone == m.id))
      milestones := s.milestones.filter (fun r => !(some r.id == m.id)) }

/-- Retrieves matching milestones: a missing spec raises the
invalid-milestone exception; a spec carrying an id filters by id and
active; otherwise the namespace filter applies (the namespace field of
the external record shape is a required string, so the source's
final empty-list fallthrough for a null namespace is unreachable
here). -/
def fetch_milestones (m : Option MilestoneSpec) (s : Store) :
    Except MilestonesError (List MilestoneSpec) :=
  match m with
  | none => .error .invalidMilestone
  | some spec =>
    match spec.id with
    | some _ =>
      .ok ((s.milestones.filter (fun r => some r.id == spec.id && r.active)).map
        serialize_milestone)
    | none =>
      .ok ((s.milestones.filter (fun r => r.«namespace» == spec.«namespace» && r.active)).map
        serialize_milestone)

/-- Inserts a new course-milestone link: resolves the relationship type
(possibly creating a well-known one, possibly raising), then
get-or-creates the active link row for the course, milestone and
relationship type. -/
def create_course_milestone (course_key : String) (relationship : Option String)
    (m : MilestoneSpec) (s : Store) : Except MilestonesError Store :=
  match getMilestoneRelationshipType relationship s with
  | .error e => .error e
  | .ok (t, s1) =>
    match s1.courseMilestones.find? (fun row =>
        row.course_id == course_key && row.milestone == m.id &&
        row.milestone_relationship_type == t.id && row.active) with
    | some _ => .ok s1
    | none =>
      .ok { s1 with
              courseMilestones := s1.courseMilestones ++
                [{ course_id := course_key
                   milestone := m.id
                   milestone_relationship_type := t.id
                   active := true }] }

/-- Removes an existing course-milestone link: gets the single active row
for the course and milestone id and deletes it; a missing row is silently
tolerated, while several matching rows propagate the store's
multiple-objects condition as the source's uncaught get would. -/
def delete_course_milestone (course_key : String) (m : MilestoneSpec) (s : Store) :
    Except MilestonesError Store :=
  match s.courseMilestones.filter (fun row =>
      row.course_id == course_key && row.milestone == m.id && row.active) with
  | [] => .ok s
  | [row] => .ok { s with courseMilestones := s.courseMilestones.erase row }
  | _ => .error .multipleObjectsReturned

/-- Truthiness of the optional user record combined with the source's
positivity test on its id field (defaulting to 0 when absent). -/
def userPositive : Option UserSpec → Bool
  | none => false
  | some u => decide (0 < u.id)

/-- Id carried by the optional user record (only consulted after the
positivity test has passed). -/
def userId : Option UserSpec → Int
  | none => 0
  | some u => u.id

/-- Linkage between a course-milestone row's referenced milestone and a
user: the reverse-relation exclusion joins through the milestone table
to the user-milestone table on the given user id (the user link's active
flag is not consulted). -/
def linkedToUser (row : CourseMilestone) (userId : Int) (s : Store) : Bool :=
  s.milestones.any (fun mr =>
    row.milestone == some mr.id &&
    s.userMilestones.any (fun um => um.milestone == some mr.id && um.user_id == userId))

/-- Retrieves the milestones currently linked to the specified courses:
active links for the given course ids, optionally narrowed to a resolved
relationship type; when the relationship is exactly the requires name and
a user with positive id is supplied, links whose milestone is already
linked to that user are excluded.  Each surviving row is serialized with
its course. -/
def fetch_courses_milestones (course_keys : List String) (relationship : Option String)
    (user : Option UserSpec) (s : Store) :
    Except MilestonesError (List CourseMilestoneRecord × Store) :=
  match relationship with
  | none =>
    let rows := s.courseMilestones.filter (fun row =>
      course_keys.contains row.course_id && row.active)
    .ok (rows.map (fun row => serialize_milestone_with_course row s), s)
  | some rel =>
    match getMilestoneRelationshipType (some rel) s with
    | .error e => .error e
    | .ok (t, s1) =>
      let rows := s1.courseMilestones.filter (fun row =>
        course_keys.contains row.course_id && row.active &&
        row.milestone_relationship_type == t.id)
      let rows2 :=
        if rel = "requires" ∧ userPositive user = true then
          rows.filter (fun row => !(linkedToUser row (userId user) s1))
        else rows
      .ok (rows2.map (fun row => serialize_milestone_with_course row s1), s1)

/-- Inserts a new course-content-milestone link: resolves the
relationship type, then get-or-creates the active link row. -/
def create_course_content_milestone (course_key content_key : String)
    (relationship : Option String) (m : MilestoneSpec) (s : Store) :
    Except MilestonesError Store :=
  match getMilestoneRelationshipType relationship s with
  | .error e => .error e
  | .ok (t, s1) =>
    match s1.courseContentMilestones.find? (fun row =>
        row.course_id == course_key && row.content_id == content_key &&
        row.milestone == m.id && row.milestone_relationship_type == t.id && row.active) with
    | some _ => .ok s1
    | none =>
      .ok { s1 with
              courseContentMilestones := s1.courseContentMilestones ++
                [{ course_id := course_key
                   content_id := content_key
                   milestone := m.id
                   milestone_relationship_type := t.id
                   active := true }] }

/-- Removes an existing course-content-milestone link; a missing row is
silently tolerated. -/
def delete_course_content_milestone (course_key content_key : String) (m : MilestoneSpec)
    (s : Store) : Except MilestonesError Store :=
  match s.courseContentMilestones.filter (fun row =>
      row.course_id == course_key && row.content_id == content_key &&
      row.milestone == m.id && row.active) with
  | [] => .ok s
  | [row] => .ok { s with courseContentMilestones := s.courseContentMilestones.erase row }
  | _ => .error .multipleObjectsReturned

/-- Retrieves the milestones currently linked to the specified course
content.  The active-milestone base set is narrowed by existence of a
matching content link for the supplied course and content keys; when a
truthy relationship is supplied the accumulated query is replaced
wholesale by the set of active milestones having any content link of the
resolved relationship type, discarding the course and content
conditions. -/
def fetch_course_content_milestones (course_key content_key : Option String)
    (relationship : Option String) (s : Store) :
    Except MilestonesError (List MilestoneSpec × Store) :=
  let q0 := s.milestones.filter (fun r => r.active)
  let q1 :=
    if optTruthy course_key then
      q0.filter (fun r => s.courseContentMilestones.any (fun c =>
        c.milestone == some r.id && c.course_id == course_key.getD ""))
    else q0
  let q2 :=
    if optTruthy content_key then
      q1.filter (fun r => s.courseContentMilestones.any (fun c =>
        c.milestone == some r.id && c.content_id == content_key.getD ""))
    else q1
  if optTruthy relationship then
    match getMilestoneRelationshipType relationship s with
    | .error e => .error e
    | .ok (t, s1) =>
      .ok ((s1.milestones.filter (fun r =>
        r.active && s1.courseContentMilestones.any (fun c =>
          c.milestone == some r.id && c.milestone_relationship_type == t.id))).map
            serialize_milestone, s1)
  else
    .ok (q2.map serialize_milestone, s)

/-- Retrieves the courses currently linked to the specified milestone:
active course links for the milestone's id, optionally narrowed to a
resolved relationship type. -/
def fetch_milestone_courses (m : MilestoneSpec) (relationship : Option String) (s : Store) :
    Except MilestonesError (List CourseMilestoneRecord × Store) :=
  match relationship with
  | none =>
    let rows := s.courseMilestones.filter (fun row => row.milestone == m.id && row.active)
    .ok (rows.map (fun row => serialize_milestone_with_course row s), s)
  | some rel =>
    match getMilestoneRelationshipType (some rel) s with
    | .error e => .error e
    | .ok (t, s1) =>
      let rows := s1.courseMilestones.filter (fun row =>
        row.milestone == m.id && row.active && row.milestone_relationship_type == t.id)
      .ok (rows.map (fun row => serialize_milestone_with_course row s1), s1)

/-- Retrieves the course content modules currently linked to the
specified milestone: active content links for the milestone's id,
optionally narrowed to a resolved relationship type. -/
def fetch_milestone_course_content (m : MilestoneSpec) (relationship : Option String)
    (s : Store) : Except MilestonesError (List CourseContentMilestoneRecord × Store) :=
  match relationship with
  | none =>
    let rows := s.courseContentMilestones.filter (fun row =>
      row.milestone == m.id && row.active)
    .ok (rows.map (fun row => serialize_milestone_with_course_content row s), s)
  | some rel =>
    match getMilestoneRelationshipType (some rel) s with
    | .error e => .error e
    | .ok (t, s1) =>
      let rows := s1.courseContentMilestones.filter (fun row =>
        row.milestone == m.id && row.active && row.milestone_relationship_type == t.id)
      .ok (rows.map (fun row => serialize_milestone_with_course_content row s1), s1)

/-- Inserts a new user-milestone link by get-or-create on the user id,
milestone and active flag. -/
def create_user_milestone (u : UserSpec) (m : MilestoneSpec) (s : Store) : Store :=
  match s.userMilestones.find? (fun row =>
      row.user_id == u.id && row.milestone == m.id && row.active) with
  | some _ => s
  | none =>
    { s with
        userMilestones := s.userMilestones ++
          [{ user_id := u.id, milestone := m.id, active := true }] }

/-- Removes an existing user-milestone link; a missing row is silently
tolerated. -/
def delete_user_milestone (u : UserSpec) (m : MilestoneSpec) (s : Store) :
    Except MilestonesError Store :=
  match s.userMilestones.filter (fun row =>
      row.user_id == u.id && row.milestone == m.id && row.active) with
  | [] => .ok s
  | [row] => .ok { s with userMilestones := s.userMilestones.erase row }
  | _ => .error .multipleObjectsReturned

/-- Retrieves the milestones currently linked to the specified user:
active milestones having a user link for the user id, optionally
restricted to a single milestone id. -/
def fetch_user_milestones (u : UserSpec) (m : Option MilestoneSpec) (s : Store) :
    List MilestoneSpec :=
  let q : List Milestone :=
    match m with
    | none =>
      s.milestones.filter (fun r =>
        r.active && s.userMilestones.any (fun um =>
          um.milestone == some r.id && um.user_id == u.id))
    | some spec =>
      s.milestones.filter (fun r =>
        some r.id == spec.id && r.active && s.userMilestones.any (fun um =>
          um.milestone == some r.id && um.user_id == u.id))
  q.map serialize_milestone

/-- Removes references to a content key: unconditional bulk delete of all
course-content links with that content id. -/
def delete_content_references (content_key : String) (s : Store) : Store :=
  { s with
      courseContentMilestones :=
        s.courseContentMilestones.filter (fun row => !(row.content_id == content_key)) }

/-- Removes references to a course key: unconditional bulk delete of all
course links and all course-content links with that course id. -/
def delete_course_references (course_key : String) (s : Store) : Store :=
  { s with
      courseMilestones := s.courseMilestones.filter (fun row => !(row.course_id == course_key))
      courseContentMilestones :=
        s.courseContentMilestones.filter (fun row => !(row.course_id == course_key)) }

/-- Modelled from the spec: a fulfillment-path record for one
outstanding milestone, with the courses key omitted entirely when no
course fulfills it and the content key omitted entirely when no
course-content pair fulfills it. -/
structure FulfillmentPath where
  courses : Option (List String)
  content : Option (List (String × String))
deriving Repr, DecidableEq

/-- Milestone record carried by a course listing row, viewed again as an
external milestone record when handed back to a milestone-scoped
query. -/
def courseRecordSpec (rec : CourseMilestoneRecord) : MilestoneSpec :=
  { id := rec.id
    «namespace» := rec.«namespace»
    name := rec.name
    description := rec.description
    active := rec.active }

/-- Modelled from the spec: the stable per-milestone identifier keying
the fulfillment-path result mapping. -/
def milestoneKey (rec : CourseMilestoneRecord) : String :=
  "milestone_" ++ toString (rec.id.getD 0)

/-- Modelled from the spec: api.py is absent from the sources; for each
outstanding milestone the resolver collects the courses with an active
fulfills link to it and the course-content pairs with an active fulfills
link to it, builds the path record with empty collections omitted, and
drops milestones with neither from the mapping entirely. -/
def buildFulfillmentPaths :
    List CourseMilestoneRecord → Store →
      Except MilestonesError (List (String × FulfillmentPath) × Store)
  | [], s => .ok ([], s)
  | rec :: rest, s =>
    match fetch_milestone_courses (courseRecordSpec rec) (some "fulfills") s with
    | .error e => .error e
    | .ok (crs, s1) =>
      match fetch_milestone_course_content (courseRecordSpec rec) (some "fulfills") s1 with
      | .error e => .error e
      | .ok (cnt, s2) =>
        match buildFulfillmentPaths rest s2 with
        | .error e => .error e
        | .ok (tail, s3) =>
          let courseIds := crs.map (fun r => r.course_id)
          let contentIds := cnt.map (fun r => (r.course_id, r.content_id))
          if courseIds.isEmpty && contentIds.isEmpty then
            .ok (tail, s3)
          else
            .ok ((milestoneKey rec,
                  { courses := if courseIds.isEmpty then none else some courseIds
                    content := if contentIds.isEmpty then none else some contentIds })
                 :: tail, s3)

/-- Modelled from the spec: api.py is absent from the sources; the
fulfillment-path resolver computes the course's outstanding required
milestones via the course listing with the user-exclusion filter, then
builds the path mapping for them. -/
def get_course_milestones_fulfillment_paths (course_key : String) (u : UserSpec)
    (s : Store) : Except MilestonesError (List (String × FulfillmentPath) × Store) :=
  match fetch_courses_milestones [course_key] (some "requires") (some u) s with
  | .error e => .error e
  | .ok (outstanding, s1) => buildFulfillmentPaths outstanding s1

/-! Helper lemmas shared by the claim theorems. -/

/-- Relationship-type resolution touches only the relationship-type
table; the other four tables of the store are preserved. -/
theorem getMilestoneRelationshipType_preserves (rel : Option String) (s s' : Store)
    (t : MilestoneRelationshipType)
    (h : getMilestoneRelationshipType rel s = .ok (t, s')) :
    s'.milestones = s.milestones ∧ s'.courseMilestones = s.courseMilestones ∧
      s'.courseContentMilestones = s.courseContentMilestones ∧
      s'.userMilestones = s.userMilestones := by
  unfold getMilestoneRelationshipType at h
  split at h
  · cases h
    exact ⟨rfl, rfl, rfl, rfl⟩
  · split at h
    · cases h
      exact ⟨rfl, rfl, rfl, rfl⟩
    · cases h

/-- Serialization of milestone records is injective. -/
theorem serialize_milestone_inj {a b : Milestone}
    (h : serialize_milestone a = serialize_milestone b) : a = b := by
  cases a
  cases b
  simp only [serialize_milestone, MilestoneSpec.mk.injEq, Option.some.injEq] at h
  simp only [Milestone.mk.injEq]
  exact h

/-- The id field of a serialized course-milestone row names a milestone
exactly when the row references that id and a milestone with that id is
stored. -/
theorem serialize_milestone_with_course_id (row : CourseMilestone) (s : Store) (i : Nat) :
    (serialize_milestone_with_course row s).id = some i ↔
      row.milestone = some i ∧ ∃ mr ∈ s.milestones, mr.id = i := by
  unfold serialize_milestone_with_course
  split
  next mr hfind =>
    have hp := List.find?_some hfind
    have hmem := List.mem_of_find?_eq_some hfind
    simp only [beq_iff_eq] at hp
    constructor
    · intro hid
      simp only [Option.some.injEq] at hid
      exact ⟨by rw [← hp, hid], ⟨mr, hmem, hid⟩⟩
    · rintro ⟨h1, -⟩
      rw [h1] at hp
      simp only [Option.some.injEq] at hp ⊢
      exact hp
  next hfind =>
    constructor
    · intro h
      simp at h
    · rintro ⟨h1, mr, hmem, hid⟩
      exfalso
      rw [List.find?_eq_none] at hfind
      exact hfind mr hmem (by simp [h1, hid])

/-! Claim theorems. -/

/-- Store holding one milestone record, used to exhibit the behavior of
the update operation. -/
def updateDemoStore : Store :=
  { milestones := [{ id := 1, «namespace» := "demo", name := "Old Name",
                     description := "Old Desc", active := true }]
    relationshipTypes := []
    courseMilestones := []
    courseContentMilestones := []
    userMilestones := []
    nextMilestoneId := 2
    nextRelationshipTypeId := 1 }

/-- Update request carrying the id of the stored record and fresh field
values. -/
def updateDemoSpec : MilestoneSpec :=
  { id := some 1, «namespace» := "demo", name := "New Name",
    description := "New Desc", active := true }

/-- C1: update_milestone returns the new field values but leaves the
store unchanged, because the source never saves the mutated object; a
subsequent fetch by id on the returned store observes the old name and
description, contradicting the full-overwrite reading.  The no-match
half of the claim does hold: an unknown id fails with the
invalid-milestone error. -/
theorem c1_update_milestone_not_persisted :
    update_milestone updateDemoSpec updateDemoStore =
      .ok (updateDemoSpec, updateDemoStore) ∧
    fetch_milestones (some updateDemoSpec) updateDemoStore =
      .ok [{ id := some 1, «namespace» := "demo", name := "Old Name",
             description := "Old Desc", active := true }] ∧
    update_milestone { updateDemoSpec with id := some 99 } updateDemoStore =
      .error .invalidMilestone := by
  refine ⟨?_, ?_, ?_⟩ <;> rfl

/-- C4: creating a milestone twice with the same namespace and name
returns the same serialized record both times, even when the second
request carries a different description, and the second creation leaves
the store exactly as the first creation left it. -/
theorem c4_create_milestone_idempotent (s : Store) (m : MilestoneSpec) (d : String) :
    (create_milestone { m with description := d } (create_milestone m s).2).1 =
      (create_milestone m s).1 ∧
    (create_milestone { m with description := d } (create_milestone m s).2).2 =
      (create_milestone m s).2 := by
  cases hf : s.milestones.find? (fun r =>
      r.«namespace» == m.«namespace» && r.name == m.name && r.active) with
  | some r =>
    simp [create_milestone, hf]
  | none =>
    simp [create_milestone, hf, List.find?_append, List.find?]

/-- C5: resolving a relationship name yields an active type whenever it
succeeds and the invalid-relationship-type error whenever it fails; it
succeeds exactly when the name is one of the two well-known names or an
active type with that name is already registered (so an unregistered
other name, including the empty or missing name, fails). -/
theorem c5_relationship_type_resolution (s : Store) (relationship : Option String) :
    (match getMilestoneRelationshipType relationship s with
      | .ok (t, _) => t.active = true
      | .error e => e = .invalidMilestoneRelationshipType) ∧
    ((∃ t s', getMilestoneRelationshipType relationship s = .ok (t, s')) ↔
      (relationship = some "requires" ∨ relationship = some "fulfills" ∨
        ∃ t ∈ s.relationshipTypes, some t.name = relationship ∧ t.active = true)) := by
  unfold getMilestoneRelationshipType
  cases hf : s.relationshipTypes.find? (fun t => some t.name == relationship && t.active) with
  | some t0 =>
    have hp := List.find?_some hf
    have hmem := List.mem_of_find?_eq_some hf
    simp only [Bool.and_eq_true, beq_iff_eq] at hp
    refine ⟨hp.2, ?_, ?_⟩
    · intro _
      exact Or.inr (Or.inr ⟨t0, hmem, hp.1, hp.2⟩)
    · intro _
      exact ⟨t0, s, rfl⟩
  | none =>
    by_cases hw : relationship = some "requires" ∨ relationship = some "fulfills"
    · rw [if_pos hw]
      refine ⟨rfl, ?_, ?_⟩
      · intro _
        rcases hw with h | h
        · exact Or.inl h
        · exact Or.inr (Or.inl h)
      · intro _
        exact ⟨_, _, rfl⟩
    · rw [if_neg hw]
      refine ⟨rfl, ?_, ?_⟩
      · rintro ⟨t, s', h⟩
        cases h
      · rintro (h | h | ⟨t, hmem, hname, hact⟩)
        · exact absurd (Or.inl h) hw
        · exact absurd (Or.inr h) hw
        · exfalso
          rw [List.find?_eq_none] at hf
          exact hf t hmem (by simp [hname, hact])

/-- C8: removing the references of a course key deletes exactly the
course-milestone and course-content-milestone rows carrying that course
id, regardless of their active flags and relationship types, and leaves
the milestone, user-milestone and relationship-type tables untouched. -/
theorem c8_delete_course_references (course_key : String) (s : Store) :
    (delete_course_references course_key s).milestones = s.milestones ∧
    (delete_course_references course_key s).userMilestones = s.userMilestones ∧
    (delete_course_references course_key s).relationshipTypes = s.relationshipTypes ∧
    (∀ row ∈ (delete_course_references course_key s).courseMilestones,
      row.course_id ≠ course_key ∧ row ∈ s.courseMilestones) ∧
    (∀ row ∈ s.courseMilestones, row.course_id ≠ course_key →
      row ∈ (delete_course_references course_key s).courseMilestones) ∧
    (∀ row ∈ (delete_course_references course_key s).courseContentMilestones,
      row.course_id ≠ course_key ∧ row ∈ s.courseContentMilestones) ∧
    (∀ row ∈ s.courseContentMilestones, row.course_id ≠ course_key →
      row ∈ (delete_course_references course_key s).courseContentMilestones) := by
  simp only [delete_course_references, List.mem_filter, Bool.not_eq_eq_eq_not,
    Bool.not_true, beq_eq_false_iff_ne, ne_eq]
  refine ⟨trivial, trivial, trivial, ?_, ?_, ?_, ?_⟩
  · exact fun row h => ⟨h.2, h.1⟩
  · exact fun row h hne => ⟨h, hne⟩
  · exact fun row h => ⟨h.2, h.1⟩
  · exact fun row h hne => ⟨h, hne⟩

/-- C3: when a truthy relationship name is supplied, the content-milestone
listing ignores the course and content arguments entirely — any two
argument pairs give the same outcome — and, when the relationship
resolves, it returns exactly the active milestones having a content link
of that relationship type anywhere in the store. -/
theorem c3_content_relationship_precedence (ck ck' ctk ctk' : Option String) (r : String)
    (hr : r ≠ "") (s : Store) :
    fetch_course_content_milestones ck ctk (some r) s =
      fetch_course_content_milestones ck' ctk' (some r) s ∧
    ∀ t s1, getMilestoneRelationshipType (some r) s = .ok (t, s1) →
      ∃ res, fetch_course_content_milestones ck ctk (some r) s = .ok (res, s1) ∧
        ∀ m ∈ s.milestones,
          (serialize_milestone m ∈ res ↔
            m.active = true ∧ ∃ c ∈ s.courseContentMilestones,
              c.milestone = some m.id ∧ c.milestone_relationship_type = t.id) := by
  have hopt : optTruthy (some r) = true := by
    simp only [optTruthy, bne_iff_ne, ne_eq]
    exact hr
  constructor
  · simp only [fetch_course_content_milestones, hopt, if_true]
  · intro t s1 hres
    obtain ⟨hm, hcm, hccm, hum⟩ := getMilestoneRelationshipType_preserves _ _ _ _ hres
    simp only [fetch_course_content_milestones, hopt, if_true, hres]
    refine ⟨_, rfl, ?_⟩
    intro m hmem
    constructor
    · intro hin
      rw [List.mem_map] at hin
      obtain ⟨m', hm', heq⟩ := hin
      cases serialize_milestone_inj heq
      rw [List.mem_filter] at hm'
      obtain ⟨-, hpred⟩ := hm'
      simp only [Bool.and_eq_true, List.any_eq_true, beq_iff_eq] at hpred
      obtain ⟨hact, c, hc, h1, h2⟩ := hpred
      rw [hccm] at hc
      exact ⟨hact, c, hc, h1, h2⟩
    · rintro ⟨hact, c, hc, h1, h2⟩
      rw [List.mem_map]
      refine ⟨m, ?_, rfl⟩
      rw [List.mem_filter]
      refine ⟨by rw [hm]; exact hmem, ?_⟩
      simp only [Bool.and_eq_true, List.any_eq_true, beq_iff_eq]
      exact ⟨hact, c, by rw [hccm]; exact hc, h1, h2⟩

/-- Store exercising the content-listing quirk: one active milestone
fulfilled by a content link whose course and content keys differ from
the ones the listing is queried with. -/
def contentQuirkStore : Store :=
  { milestones := [{ id := 1, «namespace» := "ns", name := "M1",
                     description := "d", active := true }]
    relationshipTypes := [{ id := 1, name := "fulfills", active := true }]
    courseMilestones := []
    courseContentMilestones := [{ course_id := "CA", content_id := "K0",
                                  milestone := some 1,
                                  milestone_relationship_type := 1, active := true }]
    userMilestones := []
    nextMilestoneId := 2
    nextRelationshipTypeId := 2 }

/-- Counterexample for C3 as frozen: the empty string is a non-None
relationship name, yet the source's bare truthiness test skips the
precedence branch for it, so the course filter is applied — the query
under course X returns nothing while the same query under course CA
returns the linked milestone, refuting invariance in the course and
content arguments. -/
theorem c3_content_relationship_precedence_counterexample :
    fetch_course_content_milestones (some "X") none (some "") contentQuirkStore =
      .ok ([], contentQuirkStore) ∧
    fetch_course_content_milestones (some "CA") none (some "") contentQuirkStore =
      .ok ([{ id := some 1, «namespace» := "ns", name := "M1",
              description := "d", active := true }], contentQuirkStore) ∧
    fetch_course_content_milestones (some "X") none (some "") contentQuirkStore ≠
      fetch_course_content_milestones (some "CA") none (some "") contentQuirkStore := by
  refine ⟨rfl, rfl, ?_⟩
  intro h
  rw [show fetch_course_content_milestones (some "X") none (some "") contentQuirkStore =
        .ok ([], contentQuirkStore) from rfl,
      show fetch_course_content_milestones (some "CA") none (some "") contentQuirkStore =
        .ok ([{ id := some 1, «namespace» := "ns", name := "M1",
                description := "d", active := true }], contentQuirkStore) from rfl] at h
  simp at h

/-- Witness for C3 at a concrete store: querying two unrelated course and
content keys gives the same outcome, and the milestone linked under
entirely different keys is returned. -/
theorem c3_content_relationship_precedence_witness :
    fetch_course_content_milestones (some "X") (some "K1") (some "fulfills")
        contentQuirkStore =
      fetch_course_content_milestones (some "Z") none (some "fulfills")
        contentQuirkStore ∧
    ∃ res, fetch_course_content_milestones (some "X") (some "K1") (some "fulfills")
        contentQuirkStore = .ok (res, contentQuirkStore) ∧
      serialize_milestone { id := 1, «namespace» := "ns", name := "M1",
                            description := "d", active := true } ∈ res := by
  have h := c3_content_relationship_precedence (some "X") (some "Z") (some "K1") none
    "fulfills" (by decide) contentQuirkStore
  refine ⟨h.1, ?_⟩
  obtain ⟨res, heq, hiff⟩ :=
    h.2 { id := 1, name := "fulfills", active := true } contentQuirkStore (by rfl)
  refine ⟨res, heq, ?_⟩
  refine (hiff _ (by decide)).2 ⟨rfl, ?_⟩
  exact ⟨{ course_id := "CA", content_id := "K0", milestone := some 1,
           milestone_relationship_type := 1, active := true }, by decide, rfl, rfl⟩

/-- C10: the user-exclusion filter of the course listing is applied only
when the relationship is exactly the requires name and the supplied user
record has a strictly positive id; in every other case the result is the
same as with no user at all, and in particular every active matching
link row still contributes its record even when its milestone is already
linked to the user. -/
theorem c10_user_exclusion_guard (keys : List String) (relationship : Option String)
    (user : Option UserSpec) (s : Store)
    (h : ¬(relationship = some "requires" ∧ userPositive user = true)) :
    fetch_courses_milestones keys relationship user s =
      fetch_courses_milestones keys relationship none s ∧
    ∀ rel t s1, relationship = some rel →
      getMilestoneRelationshipType (some rel) s = .ok (t, s1) →
      ∃ res, fetch_courses_milestones keys relationship user s = .ok (res, s1) ∧
        ∀ row ∈ s.courseMilestones, keys.contains row.course_id = true →
          row.active = true → row.milestone_relationship_type = t.id →
          serialize_milestone_with_course row s1 ∈ res := by
  cases relationship with
  | none =>
    refine ⟨rfl, ?_⟩
    intro rel t s1 hrel
    cases hrel
  | some rel =>
    have hcond : ¬(rel = "requires" ∧ userPositive user = true) := by
      rintro ⟨h1, h2⟩
      exact h ⟨by rw [h1], h2⟩
    have hcondn : ¬(rel = "requires" ∧ userPositive (none : Option UserSpec) = true) := by
      rintro ⟨-, h2⟩
      simp [userPositive] at h2
    cases hres : getMilestoneRelationshipType (some rel) s with
    | error e =>
      constructor
      · simp only [fetch_courses_milestones, hres]
      · intro rel' t s1 hrel' hres'
        cases hrel'
        rw [hres] at hres'
        cases hres'
    | ok p =>
      obtain ⟨t0, s1'⟩ := p
      obtain ⟨hm, hcm, hccm, hum⟩ := getMilestoneRelationshipType_preserves _ _ _ _ hres
      constructor
      · simp only [fetch_courses_milestones, hres, if_neg hcond, if_neg hcondn]
      · intro rel' t s1 hrel' hres'
        cases hrel'
        rw [hres] at hres'
        cases hres'
        simp only [fetch_courses_milestones, hres, if_neg hcond]
        refine ⟨_, rfl, ?_⟩
        intro row hrow hkeys hact hmrt
        rw [List.mem_map]
        refine ⟨row, ?_, rfl⟩
        rw [List.mem_filter]
        refine ⟨by rw [hcm]; exact hrow, ?_⟩
        simp only [Bool.and_eq_true, beq_iff_eq]
        exact ⟨⟨hkeys, hact⟩, hmrt⟩

/-- Store exercising the exclusion guard: one fulfills link whose
milestone the user already holds. -/
def guardStore : Store :=
  { milestones := [{ id := 1, «namespace» := "ns", name := "M1",
                     description := "d", active := true }]
    relationshipTypes := [{ id := 2, name := "fulfills", active := true }]
    courseMilestones := [{ course_id := "C", milestone := some 1,
                           milestone_relationship_type := 2, active := true }]
    courseContentMilestones := []
    userMilestones := [{ user_id := 7, milestone := some 1, active := true }]
    nextMilestoneId := 2
    nextRelationshipTypeId := 3 }

/-- Witness for C10 at a concrete store: a fulfills query with a user who
already holds the linked milestone behaves as with no user, and the held
milestone's record is still returned. -/
theorem c10_user_exclusion_guard_witness :
    fetch_courses_milestones ["C"] (some "fulfills") (some { id := 7 }) guardStore =
      fetch_courses_milestones ["C"] (some "fulfills") none guardStore ∧
    ∃ res, fetch_courses_milestones ["C"] (some "fulfills") (some { id := 7 })
        guardStore = .ok (res, guardStore) ∧
      serialize_milestone_with_course
        { course_id := "C", milestone := some 1,
          milestone_relationship_type := 2, active := true } guardStore ∈ res := by
  have h := c10_user_exclusion_guard ["C"] (some "fulfills") (some { id := 7 })
    guardStore (by decide)
  refine ⟨h.1, ?_⟩
  obtain ⟨res, heq, hmem⟩ :=
    h.2 "fulfills" { id := 2, name := "fulfills", active := true } guardStore rfl (by rfl)
  exact ⟨res, heq, hmem _ (by decide) (by decide) rfl rfl⟩

/-- The user-link operations only ever produce active user-link rows:
linking preserves the all-active invariant the claim about outstanding
milestones is stated under. -/
theorem create_user_milestone_links_active (u : UserSpec) (m : MilestoneSpec) (s : Store)
    (h : ∀ um ∈ s.userMilestones, um.active = true) :
    ∀ um ∈ (create_user_milestone u m s).userMilestones, um.active = true := by
  unfold create_user_milestone
  split
  · exact h
  · intro um hum
    rw [List.mem_append] at hum
    rcases hum with h1 | h1
    · exact h um h1
    · rw [List.mem_singleton] at h1
      rw [h1]

/-- C2: under the requires relationship with a positive-id user, a
milestone linked to one of the queried courses appears in the course
listing exactly when no active user link ties the user to it (stated on
stores whose user links are all active, the only kind the link
operations ever produce). -/
theorem c2_outstanding_iff_no_user_link (keys : List String) (u : UserSpec) (s : Store)
    (M : Milestone) (t : MilestoneRelationshipType) (s' : Store) (row : CourseMilestone)
    (hu : 0 < u.id)
    (hM : M ∈ s.milestones)
    (hact : ∀ um ∈ s.userMilestones, um.active = true)
    (hres : getMilestoneRelationshipType (some "requires") s = .ok (t, s'))
    (hrow : row ∈ s.courseMilestones)
    (hck : keys.contains row.course_id = true)
    (hmil : row.milestone = some M.id)
    (hmrt : row.milestone_relationship_type = t.id)
    (hactive : row.active = true) :
    ∃ res, fetch_courses_milestones keys (some "requires") (some u) s = .ok (res, s') ∧
      ((∃ rec ∈ res, rec.id = some M.id) ↔
        ¬∃ um ∈ s.userMilestones, um.user_id = u.id ∧ um.milestone = some M.id ∧
          um.active = true) := by
  obtain ⟨hm, hcm, hccm, hum⟩ := getMilestoneRelationshipType_preserves _ _ _ _ hres
  have hpos : userPositive (some u) = true := by
    simp only [userPositive, decide_eq_true_eq]
    exact hu
  have huid : userId (some u) = u.id := rfl
  simp only [fetch_courses_milestones, hres]
  rw [if_pos (show True ∧ userPositive (some u) = true from ⟨trivial, hpos⟩)]
  refine ⟨_, rfl, ?_⟩
  constructor
  · rintro ⟨rec, hrec, hrecid⟩
    rw [List.mem_map] at hrec
    obtain ⟨row', hrow', hser⟩ := hrec
    rw [← hser, serialize_milestone_with_course_id] at hrecid
    obtain ⟨hmil', -⟩ := hrecid
    rw [List.mem_filter] at hrow'
    obtain ⟨-, hnl⟩ := hrow'
    rw [Bool.not_eq_eq_eq_not, Bool.not_true] at hnl
    rintro ⟨um, hummem, h1, h2, -⟩
    have hlink : linkedToUser row' (userId (some u)) s' = true := by
      simp only [linkedToUser, List.any_eq_true, Bool.and_eq_true, beq_iff_eq]
      refine ⟨M, by rw [hm]; exact hM, hmil', um, by rw [hum]; exact hummem, h2, ?_⟩
      rw [huid]
      exact h1
    rw [hlink] at hnl
    cases hnl
  · intro hno
    refine ⟨serialize_milestone_with_course row s', ?_, ?_⟩
    · rw [List.mem_map]
      refine ⟨row, ?_, rfl⟩
      rw [List.mem_filter]
      constructor
      · rw [List.mem_filter]
        refine ⟨by rw [hcm]; exact hrow, ?_⟩
        simp only [Bool.and_eq_true, beq_iff_eq]
        exact ⟨⟨hck, hactive⟩, hmrt⟩
      · rw [Bool.not_eq_eq_eq_not, Bool.not_true]
        by_contra hlk
        rw [Bool.not_eq_false] at hlk
        simp only [linkedToUser, List.any_eq_true, Bool.and_eq_true, beq_iff_eq] at hlk
        obtain ⟨mr, hmr, hrm, um, humem, hum1, hum2⟩ := hlk
        rw [hmil] at hrm
        have hmid : mr.id = M.id := (Option.some.injEq _ _).mp hrm.symm
        rw [hum] at humem
        refine hno ⟨um, humem, ?_, ?_, hact um humem⟩
        · rw [← huid]
          exact hum2
        · rw [hum1, hmid]
    · rw [serialize_milestone_with_course_id]
      exact ⟨hmil, M, by rw [hm]; exact hM, rfl⟩

/-- Store exercising the outstanding-milestone subtraction: a course
requiring one milestone and a user not yet linked to it. -/
def outstandingStore : Store :=
  { milestones := [{ id := 1, «namespace» := "ns", name := "M1",
                     description := "d", active := true }]
    relationshipTypes := [{ id := 1, name := "requires", active := true }]
    courseMilestones := [{ course_id := "C", milestone := some 1,
                           milestone_relationship_type := 1, active := true }]
    courseContentMilestones := []
    userMilestones := []
    nextMilestoneId := 2
    nextRelationshipTypeId := 2 }

/-- Witness for C2 at a concrete store: with no user link the required
milestone is listed as outstanding. -/
theorem c2_outstanding_iff_no_user_link_witness :
    ∃ res, fetch_courses_milestones ["C"] (some "requires") (some { id := 5 })
        outstandingStore = .ok (res, outstandingStore) ∧
      ∃ rec ∈ res, rec.id = some 1 := by
  obtain ⟨res, heq, hiff⟩ := c2_outstanding_iff_no_user_link ["C"] { id := 5 }
    outstandingStore
    { id := 1, «namespace» := "ns", name := "M1", description := "d", active := true }
    { id := 1, name := "requires", active := true } outstandingStore
    { course_id := "C", milestone := some 1, milestone_relationship_type := 1,
      active := true }
    (by decide) (by decide) (by decide) (by rfl) (by decide) (by decide) rfl rfl rfl
  exact ⟨res, heq, hiff.2 (by decide)⟩

/-- Containment in a singleton string list is equality. -/
theorem contains_singleton_eq {x a : String} (h : [a].contains x = true) : x = a := by
  simpa using h

/-- Membership in a conditionally filtered list implies membership in
the underlying list. -/
theorem mem_ite_filter {α : Type} {c : Prop} [Decidable c] {p : α → Bool} {l : List α}
    {x : α} (h : x ∈ if c then l.filter p else l) : x ∈ l := by
  split at h
  · exact (List.mem_filter.mp h).1
  · exact h

/-- C6: deleting a milestone removes every association row referencing
its id and the milestone record itself, so it no longer appears in the
fetch by id, in any of the three tables, nor in the user, course or
course-content listings; and when nothing references the id the
deletion is a no-op rather than an error. -/
theorem c6_delete_milestone_cascades (m : MilestoneSpec) (i : Nat) (s : Store)
    (him : m.id = some i) :
    (∀ spec : MilestoneSpec, spec.id = some i →
      fetch_milestones (some spec) (delete_milestone m s) = .ok []) ∧
    (∀ row ∈ (delete_milestone m s).courseMilestones, row.milestone ≠ some i) ∧
    (∀ row ∈ (delete_milestone m s).courseContentMilestones, row.milestone ≠ some i) ∧
    (∀ um ∈ (delete_milestone m s).userMilestones, um.milestone ≠ some i) ∧
    (∀ mr ∈ (delete_milestone m s).milestones, mr.id ≠ i) ∧
    (∀ u rec, rec ∈ fetch_user_milestones u none (delete_milestone m s) →
      rec.id ≠ some i) ∧
    (∀ keys res s2,
      fetch_courses_milestones keys none none (delete_milestone m s) = .ok (res, s2) →
      ∀ rec ∈ res, rec.id ≠ some i) ∧
    (∀ ck ctk res s2,
      fetch_course_content_milestones ck ctk none (delete_milestone m s) = .ok (res, s2) →
      ∀ rec ∈ res, rec.id ≠ some i) ∧
    ((∀ mr ∈ s.milestones, some mr.id ≠ m.id) →
     (∀ row ∈ s.courseMilestones, row.milestone ≠ m.id) →
     (∀ row ∈ s.courseContentMilestones, row.milestone ≠ m.id) →
     (∀ um ∈ s.userMilestones, um.milestone ≠ m.id) →
      delete_milestone m s = s) := by
  have hcmf : ∀ row ∈ (delete_milestone m s).courseMilestones, row.milestone ≠ some i := by
    intro row hr
    simp only [delete_milestone, List.mem_filter, Bool.not_eq_eq_eq_not, Bool.not_true,
      beq_eq_false_iff_ne, him, ne_eq] at hr
    exact hr.2
  have hccmf : ∀ row ∈ (delete_milestone m s).courseContentMilestones,
      row.milestone ≠ some i := by
    intro row hr
    simp only [delete_milestone, List.mem_filter, Bool.not_eq_eq_eq_not, Bool.not_true,
      beq_eq_false_iff_ne, him, ne_eq] at hr
    exact hr.2
  have humf : ∀ um ∈ (delete_milestone m s).userMilestones, um.milestone ≠ some i := by
    intro um hr
    simp only [delete_milestone, List.mem_filter, Bool.not_eq_eq_eq_not, Bool.not_true,
      beq_eq_false_iff_ne, him, ne_eq] at hr
    exact hr.2
  have hmf : ∀ mr ∈ (delete_milestone m s).milestones, mr.id ≠ i := by
    intro mr hr
    simp only [delete_milestone, List.mem_filter, Bool.not_eq_eq_eq_not, Bool.not_true,
      beq_eq_false_iff_ne, him, ne_eq, Option.some.injEq] at hr
    exact hr.2
  refine ⟨?_, hcmf, hccmf, humf, hmf, ?_, ?_, ?_, ?_⟩
  · intro spec hsp
    simp only [fetch_milestones, hsp]
    have hnil : (delete_milestone m s).milestones.filter
        (fun r => some r.id == some i && r.active) = [] := by
      rw [List.filter_eq_nil_iff]
      intro a ha
      simp [hmf a ha]
    rw [hnil]
    rfl
  · intro u rec hrec
    simp only [fetch_user_milestones, List.mem_map] at hrec
    obtain ⟨r, hr, hser⟩ := hrec
    have hrm := (List.mem_filter.mp hr).1
    intro hrecid
    rw [← hser] at hrecid
    simp only [serialize_milestone, Option.some.injEq] at hrecid
    exact hmf r hrm hrecid
  · intro keys res s2 heq rec hrec
    simp only [fetch_courses_milestones, Except.ok.injEq, Prod.mk.injEq] at heq
    obtain ⟨h1, -⟩ := heq
    rw [← h1, List.mem_map] at hrec
    obtain ⟨row', hrow', hser⟩ := hrec
    intro hrecid
    rw [← hser, serialize_milestone_with_course_id] at hrecid
    exact hcmf row' (List.mem_filter.mp hrow').1 hrecid.1
  · intro ck ctk res s2 heq rec hrec
    simp only [fetch_course_content_milestones, optTruthy, Bool.false_eq_true, if_false,
      Except.ok.injEq, Prod.mk.injEq] at heq
    obtain ⟨h1, -⟩ := heq
    rw [← h1, List.mem_map] at hrec
    obtain ⟨r, hr, hser⟩ := hrec
    have hrm : r ∈ (delete_milestone m s).milestones :=
      (List.mem_filter.mp (mem_ite_filter (mem_ite_filter hr))).1
    intro hrecid
    rw [← hser] at hrecid
    simp only [serialize_milestone, Option.some.injEq] at hrecid
    exact hmf r hrm hrecid
  · intro h1 h2 h3 h4
    obtain ⟨ms, rts, cms, ccms, ums, n1, n2⟩ := s
    simp only [delete_milestone, Store.mk.injEq]
    refine ⟨?_, trivial, ?_, ?_, ?_, trivial, trivial⟩ <;> rw [List.filter_eq_self] <;> intro a ha <;>
      simp only [Bool.not_eq_eq_eq_not, Bool.not_true, beq_eq_false_iff_ne, ne_eq]
    · exact h1 a ha
    · exact h2 a ha
    · exact h3 a ha
    · exact h4 a ha

/-- Store exercising the deletion cascade: one milestone referenced by
one row of each of the three association tables. -/
def cascadeStore : Store :=
  { milestones := [{ id := 1, «namespace» := "ns", name := "M1",
                     description := "d", active := true }]
    relationshipTypes := [{ id := 1, name := "requires", active := true }]
    courseMilestones := [{ course_id := "C", milestone := some 1,
                           milestone_relationship_type := 1, active := true }]
    courseContentMilestones := [{ course_id := "C", content_id := "K",
                                  milestone := some 1,
                                  milestone_relationship_type := 1, active := true }]
    userMilestones := [{ user_id := 7, milestone := some 1, active := true }]
    nextMilestoneId := 2
    nextRelationshipTypeId := 2 }

/-- Witness for C6 at a concrete store: after deleting the referenced
milestone the fetch by id is empty, and deleting an unreferenced id
leaves the store untouched. -/
theorem c6_delete_milestone_cascades_witness :
    fetch_milestones
        (some { id := some 1, «namespace» := "ns", name := "M1",
                description := "d", active := true })
        (delete_milestone
          { id := some 1, «namespace» := "ns", name := "M1",
            description := "d", active := true } cascadeStore) = .ok [] ∧
    delete_milestone
        { id := some 9, «namespace» := "x", name := "x",
          description := "x", active := true } cascadeStore = cascadeStore := by
  have h := c6_delete_milestone_cascades
    { id := some 1, «namespace» := "ns", name := "M1", description := "d", active := true }
    1 cascadeStore rfl
  have h9 := c6_delete_milestone_cascades
    { id := some 9, «namespace» := "x", name := "x", description := "x", active := true }
    9 cascadeStore rfl
  refine ⟨h.1 _ rfl, ?_⟩
  exact h9.2.2.2.2.2.2.2.2 (by decide) (by decide) (by decide) (by decide)

/-- C7: on a store with no active link between the course and the
milestone, creating the course-milestone link and then deleting it
succeeds and returns the course listing for that milestone to its prior
empty state, and unlinking while no active link exists is a silent
no-op rather than an error. -/
theorem c7_link_unlink_roundtrip (ck : String) (rel : Option String) (m : MilestoneSpec)
    (mid : Nat) (s s1 : Store)
    (hid : m.id = some mid)
    (hempty : ∀ row ∈ s.courseMilestones,
      ¬(row.course_id = ck ∧ row.milestone = some mid ∧ row.active = true))
    (hcreate : create_course_milestone ck rel m s = .ok s1) :
    (∃ s2, delete_course_milestone ck m s1 = .ok s2 ∧
      (∀ row ∈ s2.courseMilestones,
        ¬(row.course_id = ck ∧ row.milestone = some mid ∧ row.active = true)) ∧
      (∀ res s3, fetch_courses_milestones [ck] rel none s2 = .ok (res, s3) →
        ∀ rec ∈ res, rec.id ≠ some mid)) ∧
    delete_course_milestone ck m s = .ok s := by
  have hnoact : ∀ (l : List CourseMilestone),
      (∀ row ∈ l, ¬(row.course_id = ck ∧ row.milestone = some mid ∧ row.active = true)) →
      l.filter (fun row => row.course_id == ck && row.milestone == m.id && row.active)
        = [] := by
    intro l hl
    rw [List.filter_eq_nil_iff]
    intro a ha hpred
    simp only [Bool.and_eq_true, beq_iff_eq, hid] at hpred
    exact hl a ha ⟨hpred.1.1, hpred.1.2, hpred.2⟩
  have hnoop : delete_course_milestone ck m s = .ok s := by
    simp only [delete_course_milestone, hnoact s.courseMilestones hempty]
  refine ⟨?_, hnoop⟩
  unfold create_course_milestone at hcreate
  cases hres : getMilestoneRelationshipType rel s with
  | error e =>
    rw [hres] at hcreate
    cases hcreate
  | ok p =>
    obtain ⟨t, sA⟩ := p
    obtain ⟨hm, hcm, hccm, hum⟩ := getMilestoneRelationshipType_preserves _ _ _ _ hres
    simp only [hres] at hcreate
    have hemptyA : ∀ row ∈ sA.courseMilestones,
        ¬(row.course_id = ck ∧ row.milestone = some mid ∧ row.active = true) := by
      rw [hcm]
      exact hempty
    have hfind : sA.courseMilestones.find? (fun row =>
        row.course_id == ck && row.milestone == m.id &&
        row.milestone_relationship_type == t.id && row.active) = none := by
      rw [List.find?_eq_none]
      intro row hrow hpred
      simp only [Bool.and_eq_true, beq_iff_eq, hid] at hpred
      exact hemptyA row hrow ⟨hpred.1.1.1, hpred.1.1.2, hpred.2⟩
    rw [hfind] at hcreate
    have hs1cm : s1.courseMilestones = sA.courseMilestones ++
        [{ course_id := ck, milestone := m.id,
           milestone_relationship_type := t.id, active := true }] := by
      cases hcreate
      rfl
    have hnewmem : ({ course_id := ck, milestone := m.id,
                      milestone_relationship_type := t.id, active := true } : CourseMilestone)
        ∉ sA.courseMilestones := by
      intro hmem
      exact hemptyA _ hmem ⟨rfl, hid, rfl⟩
    have hfil : List.filter
        (fun row => row.course_id == ck && row.milestone == m.id && row.active)
        (sA.courseMilestones ++
          [({ course_id := ck, milestone := m.id,
              milestone_relationship_type := t.id, active := true } : CourseMilestone)])
          = [({ course_id := ck, milestone := m.id,
                milestone_relationship_type := t.id, active := true } : CourseMilestone)] := by
      rw [List.filter_append, hnoact sA.courseMilestones hemptyA]
      simp
    have herase : List.erase
        (sA.courseMilestones ++
          [({ course_id := ck, milestone := m.id,
              milestone_relationship_type := t.id, active := true } : CourseMilestone)])
        ({ course_id := ck, milestone := m.id,
           milestone_relationship_type := t.id, active := true } : CourseMilestone)
          = sA.courseMilestones := by
      rw [List.erase_append_right _ hnewmem, List.erase_cons_head, List.append_nil]
    have hfetch : ∀ sB : Store, sB.courseMilestones = sA.courseMilestones →
        ∀ res s3, fetch_courses_milestones [ck] rel none sB = .ok (res, s3) →
        ∀ rec ∈ res, rec.id ≠ some mid := by
      intro sB hsB res s3 heq rec hrec
      cases rel with
      | none =>
        simp only [fetch_courses_milestones, Except.ok.injEq, Prod.mk.injEq] at heq
        obtain ⟨h1, -⟩ := heq
        rw [← h1, List.mem_map] at hrec
        obtain ⟨row', hrow', hser⟩ := hrec
        intro hrecid
        rw [← hser, serialize_milestone_with_course_id] at hrecid
        have hrow'mem := List.mem_filter.mp hrow'
        rw [hsB] at hrow'mem
        obtain ⟨hmem', hpred⟩ := hrow'mem
        rw [Bool.and_eq_true] at hpred
        exact hemptyA row' hmem'
          ⟨contains_singleton_eq hpred.1, hrecid.1, hpred.2⟩
      | some r =>
        cases hres2 : getMilestoneRelationshipType (some r) sB with
        | error e =>
          simp only [fetch_courses_milestones, hres2] at heq
          cases heq
        | ok p2 =>
          obtain ⟨t2, s3'⟩ := p2
          obtain ⟨hm2, hcm2, hccm2, hum2⟩ :=
            getMilestoneRelationshipType_preserves _ _ _ _ hres2
          simp only [fetch_courses_milestones, hres2, Except.ok.injEq,
            Prod.mk.injEq] at heq
          obtain ⟨h1, -⟩ := heq
          rw [← h1, List.mem_map] at hrec
          obtain ⟨row', hrow', hser⟩ := hrec
          have hcondn : ¬(r = "requires" ∧ userPositive (none : Option UserSpec) = true) := by
            rintro ⟨-, h2⟩
            simp [userPositive] at h2
          rw [if_neg hcondn] at hrow'
          intro hrecid
          rw [← hser, serialize_milestone_with_course_id] at hrecid
          have hrow'mem := List.mem_filter.mp hrow'
          rw [hcm2, hsB] at hrow'mem
          obtain ⟨hmem', hpred⟩ := hrow'mem
          rw [Bool.and_eq_true] at hpred
          obtain ⟨hpred1, -⟩ := hpred
          rw [Bool.and_eq_true] at hpred1
          exact hemptyA row' hmem'
            ⟨contains_singleton_eq hpred1.1, hrecid.1, hpred1.2⟩
    refine ⟨{ s1 with courseMilestones := sA.courseMilestones }, ?_, ?_, ?_⟩
    · simp only [delete_course_milestone, hs1cm, hfil, herase]
    · intro row hrow
      exact hemptyA row hrow
    · exact hfetch _ rfl

/-- Store exercising the link round trip: the requires type and one
milestone exist, with no course links at all. -/
def roundtripStore : Store :=
  { milestones := [{ id := 1, «namespace» := "ns", name := "M1",
                     description := "d", active := true }]
    relationshipTypes := [{ id := 1, name := "requires", active := true }]
    courseMilestones := []
    courseContentMilestones := []
    userMilestones := []
    nextMilestoneId := 2
    nextRelationshipTypeId := 2 }

/-- Witness for C7 at a concrete store: linking course C to the milestone
and unlinking it leaves no matching listing row, and unlinking on the
link-free store is a silent no-op. -/
theorem c7_link_unlink_roundtrip_witness :
    (∃ s2, delete_course_milestone "C"
        { id := some 1, «namespace» := "ns", name := "M1",
          description := "d", active := true }
        { roundtripStore with
            courseMilestones := [{ course_id := "C", milestone := some 1,
                                   milestone_relationship_type := 1, active := true }] } =
          .ok s2 ∧
      (∀ row ∈ s2.courseMilestones,
        ¬(row.course_id = "C" ∧ row.milestone = some 1 ∧ row.active = true)) ∧
      (∀ res s3, fetch_courses_milestones ["C"] (some "requires") none s2 =
          .ok (res, s3) → ∀ rec ∈ res, rec.id ≠ some 1)) ∧
    delete_course_milestone "C"
        { id := some 1, «namespace» := "ns", name := "M1",
          description := "d", active := true } roundtripStore = .ok roundtripStore :=
  c7_link_unlink_roundtrip "C" (some "requires")
    { id := some 1, «namespace» := "ns", name := "M1", description := "d", active := true }
    1 roundtripStore
    { roundtripStore with
        courseMilestones := [{ course_id := "C", milestone := some 1,
                               milestone_relationship_type := 1, active := true }] }
    rfl (by decide) (by rfl)

/-- Every entry the path builder emits has no present-but-empty
collection and at least one collection present. -/
theorem buildFulfillmentPaths_shape (ms : List CourseMilestoneRecord) :
    ∀ (s : Store) (ps : List (String × FulfillmentPath)) (s' : Store),
      buildFulfillmentPaths ms s = .ok (ps, s') →
      ∀ e ∈ ps, (e.2.courses ≠ some [] ∧ e.2.content ≠ some []) ∧
        (e.2.courses ≠ none ∨ e.2.content ≠ none) := by
  induction ms with
  | nil =>
    intro s ps s' h e he
    simp only [buildFulfillmentPaths, Except.ok.injEq, Prod.mk.injEq] at h
    rw [← h.1] at he
    cases he
  | cons rec rest ih =>
    intro s ps s' h e he
    simp only [buildFulfillmentPaths] at h
    cases h1 : fetch_milestone_courses (courseRecordSpec rec) (some "fulfills") s with
    | error e1 =>
      simp only [h1] at h
      cases h
    | ok p1 =>
    obtain ⟨crs, s1⟩ := p1
    simp only [h1] at h
    cases h2 : fetch_milestone_course_content (courseRecordSpec rec) (some "fulfills") s1 with
    | error e2 =>
      simp only [h2] at h
      cases h
    | ok p2 =>
    obtain ⟨cnt, s2⟩ := p2
    simp only [h2] at h
    cases h3 : buildFulfillmentPaths rest s2 with
    | error e3 =>
      simp only [h3] at h
      cases h
    | ok p3 =>
    obtain ⟨tail, s3⟩ := p3
    simp only [h3] at h
    by_cases hb : ((crs.map (fun r => r.course_id)).isEmpty &&
        (cnt.map (fun r => (r.course_id, r.content_id))).isEmpty) = true
    · rw [if_pos hb] at h
      cases h
      exact ih _ _ _ h3 e he
    · rw [if_neg hb] at h
      rw [Bool.and_eq_true, not_and_or] at hb
      cases h
      cases he with
      | tail _ hmem => exact ih _ _ _ h3 e hmem
      | head =>
        refine ⟨⟨?_, ?_⟩, ?_⟩
        · show (if (crs.map (fun r => r.course_id)).isEmpty = true then none
              else some (crs.map (fun r => r.course_id))) ≠ some []
          split
          · intro hn
            cases hn
          next hcond =>
            intro hn
            apply hcond
            rw [(Option.some.injEq _ _).mp hn]
            rfl
        · show (if (cnt.map (fun r => (r.course_id, r.content_id))).isEmpty = true then none
              else some (cnt.map (fun r => (r.course_id, r.content_id)))) ≠ some []
          split
          · intro hn
            cases hn
          next hcond =>
            intro hn
            apply hcond
            rw [(Option.some.injEq _ _).mp hn]
            rfl
        · cases hb with
          | inl hc =>
            left
            show (if (crs.map (fun r => r.course_id)).isEmpty = true then none
                else some (crs.map (fun r => r.course_id))) ≠ none
            rw [if_neg hc]
            intro hn
            cases hn
          | inr hc =>
            right
            show (if (cnt.map (fun r => (r.course_id, r.content_id))).isEmpty = true then none
                else some (cnt.map (fun r => (r.course_id, r.content_id)))) ≠ none
            rw [if_neg hc]
            intro hn
            cases hn

/-- C9: every fulfillment-path record the resolver returns omits the
courses key rather than carrying an empty course list, omits the content
key rather than carrying an empty content list, and carries at least one
of the two keys — a milestone with neither fulfilling courses nor
fulfilling content never contributes an entry. -/
theorem c9_fulfillment_path_shape (course_key : String) (u : UserSpec) (s : Store)
    (ps : List (String × FulfillmentPath)) (s' : Store)
    (h : get_course_milestones_fulfillment_paths course_key u s = .ok (ps, s')) :
    ∀ e ∈ ps, (e.2.courses ≠ some [] ∧ e.2.content ≠ some []) ∧
      (e.2.courses ≠ none ∨ e.2.content ≠ none) := by
  unfold get_course_milestones_fulfillment_paths at h
  split at h
  · cases h
  · exact buildFulfillmentPaths_shape _ _ _ _ h

/-- Store exercising the fulfillment-path resolver: course C requires
the milestone and course Y fulfills it. -/
def pathStore : Store :=
  { milestones := [{ id := 1, «namespace» := "ns", name := "M1",
                     description := "d", active := true }]
    relationshipTypes := [{ id := 1, name := "requires", active := true },
                          { id := 2, name := "fulfills", active := true }]
    courseMilestones := [{ course_id := "C", milestone := some 1,
                           milestone_relationship_type := 1, active := true },
                         { course_id := "Y", milestone := some 1,
                           milestone_relationship_type := 2, active := true }]
    courseContentMilestones := []
    userMilestones := []
    nextMilestoneId := 2
    nextRelationshipTypeId := 3 }

/-- Witness for C9 at a concrete store: the single emitted path record
carries a non-empty course list and omits the content key. -/
theorem c9_fulfillment_path_shape_witness :
    (({ courses := some ["Y"], content := none } : FulfillmentPath).courses ≠ some [] ∧
     ({ courses := some ["Y"], content := none } : FulfillmentPath).content ≠ some []) ∧
    (({ courses := some ["Y"], content := none } : FulfillmentPath).courses ≠ none ∨
     ({ courses := some ["Y"], content := none } : FulfillmentPath).content ≠ none) := by
  have h := c9_fulfillment_path_shape "C" { id := 5 } pathStore
    [("milestone_1", { courses := some ["Y"], content := none })] pathStore (by rfl)
  exact h ("milestone_1", { courses := some ["Y"], content := none })
    (List.mem_singleton.mpr rfl)

end EdxMilestones
